import Mathlib

/-!
Verification development for the school-material upload scripts.

The repository consists of four TypeScript scripts sharing a Supabase
content store and OpenAI-compatible generative/embedding collaborators:

* an MCQ set creator (filters MCQs, samples them, creates a set and links
  the sampled MCQs to it with an order index),
* `src/generate-mcq.ts` (samples past-paper exemplars, fetches textbook
  content, and generates new MCQs via a structured-output model call),
* `src/upload-pastpapers.ts` (OCR-extracts questions from past-paper
  images, resolves question-type labels, embeds, reports and uploads),
* `src/upload.ts` (uploads textbook text files with embeddings computed
  from AI summaries).

External collaborators (store queries, the generative model, the embedding
model, the file system, the random shuffle) are modelled as explicit
function parameters; fallible calls return `Except String`.  Machine
numbers are modelled as `Int`/`Nat`.  JavaScript's stable `Array.sort`
is modelled with `List.mergeSort`, which is likewise stable.
-/

/-- A row of the `question_types` table (controlled vocabulary). -/
structure QuestionType where
  id : String
  name : String
  subject : String
deriving Repr, DecidableEq

namespace MCQSetScript

/-! Model of the MCQ set creator script: its `fetchMCQsByDifficulty`,
`fetchMCQs`, `linkMCQsToSet` and the empty-selection check in `main`. -/

/-- A row of the `mcqs` table, restricted to the fields the script reads.
`difficulty` and `question_type_id` are nullable in the schema. -/
structure MCQ where
  id : String
  topic : String
  question : String
  subject : String
  correct_answer : String
  explanation : String
  grade_level : Option String
  difficulty : Option Int
  question_type_id : Option String
deriving Repr, DecidableEq

/-- The `CONFIG.filters` object. -/
structure Filters where
  topic : Option String
  questionTypeNames : Option (List String)
  subject : Option String
  difficultyDistribution : Option (Nat × Nat × Nat)
  limit : Nat
deriving Repr, DecidableEq

/-- The id set resolved from allowed question-type names:
`questionTypes.filter(qt => names.includes(qt.name)).map(qt => qt.id)`. -/
def resolveTypeIds (names : List String) (questionTypes : List QuestionType) :
    List String :=
  (questionTypes.filter (fun qt => names.contains qt.name)).map (fun qt => qt.id)

/-- The conjunction of equality filters the built Supabase query applies to a
row in `fetchMCQsByDifficulty`.  Mirrors the code exactly: the
question-type `.in` filter is only attached when the name list is non-empty
AND at least one name resolves to an id; a SQL `IN` test against a null
column value is false. -/
def mcqMatches (filters : Filters) (questionTypes : List QuestionType)
    (difficultyLevels : Option (List Int)) (m : MCQ) : Bool :=
  (match filters.subject with
   | some s => m.subject == s
   | none => true) &&
  (match filters.topic with
   | some t => m.topic == t
   | none => true) &&
  (match filters.questionTypeNames with
   | some names =>
     if names.isEmpty then true
     else
       let ids := resolveTypeIds names questionTypes
       if ids.isEmpty then true
       else
         match m.question_type_id with
         | some qid => ids.contains qid
         | none => false
   | none => true) &&
  (match difficultyLevels with
   | some levels =>
     if levels.isEmpty then true
     else
       match m.difficulty with
       | some d => levels.contains d
       | none => false
   | none => true)

/-- `fetchMCQsByDifficulty`: filter the `mcqs` table, return `[]` when no
row matches, otherwise shuffle and slice to `min(limit, data.length)`.
`shuffle` stands for `data.sort(() => 0.5 - Math.random())`, an
unspecified in-place reordering (always a permutation of its input). -/
def fetchMCQsByDifficulty (shuffle : List MCQ → List MCQ) (rows : List MCQ)
    (filters : Filters) (questionTypes : List QuestionType)
    (difficultyLevels : Option (List Int)) (limit : Nat) : List MCQ :=
  let data := rows.filter (mcqMatches filters questionTypes difficultyLevels)
  if data.isEmpty then []
  else (shuffle data).take (min limit data.length)

/-- `fetchMCQs`: with a difficulty distribution, one banded fetch per
non-zero band (easy = 1-2, medium = 3, hard = 4-5), concatenated;
otherwise a single fetch with the flat limit. -/
def fetchMCQs (shuffle : List MCQ → List MCQ) (rows : List MCQ)
    (filters : Filters) (questionTypes : List QuestionType) : List MCQ :=
  match filters.difficultyDistribution with
  | some (easy, medium, hard) =>
    (if easy > 0 then
       fetchMCQsByDifficulty shuffle rows filters questionTypes (some [1, 2]) easy
     else []) ++
    (if medium > 0 then
       fetchMCQsByDifficulty shuffle rows filters questionTypes (some [3]) medium
     else []) ++
    (if hard > 0 then
       fetchMCQsByDifficulty shuffle rows filters questionTypes (some [4, 5]) hard
     else [])
  | none =>
    fetchMCQsByDifficulty shuffle rows filters questionTypes none filters.limit

/-- The empty-selection check in `main` (after `fetchMCQs`): an empty
merged selection raises `Error('No MCQs found matching the criteria')`,
which the script-level catch turns into a non-zero exit. -/
def mainEmptyCheck (selectedMCQs : List MCQ) : Except String (List MCQ) :=
  if selectedMCQs.length = 0 then
    .error "No MCQs found matching the criteria"
  else .ok selectedMCQs

/-- The sort key in `linkMCQsToSet`: `a.difficulty || 999`.  JavaScript's
`||` treats both `null` and `0` as falsy, so both map to the 999
sentinel. -/
def diffKey (d : Option Int) : Int :=
  match d with
  | none => 999
  | some v => if v == 0 then 999 else v

/-- A row of the `mcqset_questions` join table. -/
structure MCQSetQuestion where
  mcqset_id : String
  mcq_id : String
  order_index : Nat
deriving Repr, DecidableEq

/-- `sortedMCQs.map((mcq, index) => ({..., order_index: index + 1}))`,
generalised over the starting index. -/
def toSetRows (mcqSetId : String) : Nat → List MCQ → List MCQSetQuestion
  | _, [] => []
  | i, m :: ms =>
    { mcqset_id := mcqSetId, mcq_id := m.id, order_index := i + 1 } ::
      toSetRows mcqSetId (i + 1) ms

/-- The comparator of `linkMCQsToSet` as a boolean `le`:
`(a.difficulty || 999) - (b.difficulty || 999)` sorts ascending by
`diffKey`, and `Array.sort` is stable. -/
def diffLE (a b : MCQ) : Bool :=
  diffKey a.difficulty ≤ diffKey b.difficulty

/-- `linkMCQsToSet`: stable-sort the selection by `diffKey` ascending and
assign `order_index = index + 1` over the sorted list.  (The subsequent
batch insert either persists all rows or throws; row construction is the
part modelled here.) -/
def linkMCQsToSet (mcqSetId : String) (mcqs : List MCQ) :
    List MCQSetQuestion :=
  toSetRows mcqSetId 0 (mcqs.mergeSort diffLE)

end MCQSetScript

namespace GenMCQ

/-! Model of `src/generate-mcq.ts`. -/

/-- A row of the `pastpapers` table as read by `fetchRandomQuestions`. -/
structure PastPaperQuestion where
  id : String
  topic : String
  question : String
  answer : String
  question_number : Int
  question_year : Int
  subject : String
  explanation : String
  difficulty : Int
  grade_level : String
  question_type_id : String
deriving Repr, DecidableEq

/-- A row of the `textbooks` table as read by `fetchTextbookContent`. -/
structure TextbookContent where
  topic : String
  content : String
  subject : String
deriving Repr, DecidableEq

/-- One item of the structured output of `generateObject` against
`MCQSchema` (options flattened into four fields). -/
structure GeneratedMCQ where
  question : String
  optionA : String
  optionB : String
  optionC : String
  optionD : String
  correct_answer : String
  explanation : String
  difficulty : Int
  topic : String
  question_type_name : String
deriving Repr, DecidableEq

/-- What `MCQSchema` constrains per item: `correct_answer` is one of the
four labels and `difficulty` is an integer in 1..5.  (The schema does not
constrain the array length or tie difficulty to the requested mode.) -/
def schemaValid (m : GeneratedMCQ) : Bool :=
  (m.correct_answer == "A" || m.correct_answer == "B" ||
   m.correct_answer == "C" || m.correct_answer == "D") &&
  1 ≤ m.difficulty && m.difficulty ≤ 5

/-- `fetchQuestionTypes`: store query `question_types` filtered by subject. -/
def fetchQuestionTypes (rows : List QuestionType) (subject : String) :
    List QuestionType :=
  rows.filter (fun qt => qt.subject == subject)

/-- The filter predicate built by `fetchRandomQuestions`: mandatory subject
equality, optional topic equality, and the question-type `.in` filter,
which (as in the other script) is only attached when the name list is
non-empty AND resolves to at least one id. -/
def ppMatches (subject : String) (topic : Option String)
    (questionTypeNames : Option (List String))
    (questionTypes : List QuestionType) (q : PastPaperQuestion) : Bool :=
  q.subject == subject &&
  (match topic with
   | some t => q.topic == t
   | none => true) &&
  (match questionTypeNames with
   | some names =>
     if names.isEmpty then true
     else
       let ids := MCQSetScript.resolveTypeIds names questionTypes
       if ids.isEmpty then true
       else ids.contains q.question_type_id
   | none => true)

/-- `fetchRandomQuestions`: filter the `pastpapers` table; an empty result
raises `Error('No questions found matching the criteria')`; otherwise
shuffle and slice to `min(limit, data.length)`. -/
def fetchRandomQuestions
    (shuffle : List PastPaperQuestion → List PastPaperQuestion)
    (rows : List PastPaperQuestion) (subject : String) (topic : Option String)
    (questionTypeNames : Option (List String)) (limit : Nat)
    (questionTypes : List QuestionType) :
    Except String (List PastPaperQuestion) :=
  let data := rows.filter (ppMatches subject topic questionTypeNames questionTypes)
  if data.isEmpty then .error "No questions found matching the criteria"
  else .ok ((shuffle data).take (min limit data.length))

/-- `fetchTextbookContent`: query `textbooks` by subject and topic with
`.single()`, which errors unless exactly one row matches. -/
def fetchTextbookContent (textbooks : List TextbookContent)
    (subject topic : String) : Except String TextbookContent :=
  match textbooks.filter (fun t => t.subject == subject && t.topic == topic) with
  | [t] => .ok t
  | _ => .error "Failed to fetch textbook content"

/-- The four difficulty modes of `CONFIG.difficulty`. -/
inductive DifficultyMode
  | easy
  | medium
  | hard
  | mixed
deriving Repr, DecidableEq

/-- The `difficultyGuidance` lookup table in `generateMCQs`. -/
def difficultyGuidance : DifficultyMode → String
  | .easy => "所有題目應該是基礎難度（1-2/5），適合初學者，著重基本概念和直接理解。"
  | .medium => "所有題目應該是中等難度（3/5），適合一般學生，需要一定分析能力。"
  | .hard => "所有題目應該是高難度（4-5/5），適合進階學生，需要深入思考和綜合分析。"
  | .mixed => "難度分佈要均衡（簡單、中等、困難都要有），覆蓋不同程度學生。"

/-- One entry of `questionsContext`: the exemplar block for sample
question `idx` (0-based, printed 1-based). -/
def sampleQuestionContext (idx : Nat) (q : PastPaperQuestion) : String :=
  "範例題目 " ++ toString (idx + 1) ++ ":\n題目: " ++ q.question ++
  "\n答案: " ++ q.answer ++ "\n解析: " ++ q.explanation ++
  "\n難度: " ++ toString q.difficulty ++ "/5"

/-- `questionsContext`: exemplar blocks joined with blank lines. -/
def questionsContext (sampleQuestions : List PastPaperQuestion) : String :=
  String.intercalate "\n\n" (sampleQuestions.mapIdx sampleQuestionContext)

/-- `questionTypesList`: one `- name` line per question type. -/
def questionTypesList (questionTypes : List QuestionType) : String :=
  String.intercalate "\n" (questionTypes.map (fun qt => "- " ++ qt.name))

/-- The prompt text of `generateMCQs` up to (and including) the `4. `
item marker that precedes the difficulty guidance. -/
def promptBeforeGuidance (tb : TextbookContent)
    (sampleQuestions : List PastPaperQuestion) (numberOfMCQs : Nat)
    (questionTypes : List QuestionType) : String :=
  "你是一個專業的DSE中文科試題出題專家。請根據以下範文內容和範例題目，生成 " ++
  toString numberOfMCQs ++ " 道高質量的選擇題（MCQ）。\n\n【範文內容】\n篇目: " ++
  tb.topic ++ "\n內容:\n" ++ tb.content ++ "\n\n【範例題目參考】\n" ++
  questionsContext sampleQuestions ++
  "\n\n【可用的題目類型】\n請為每道題目選擇最適合的類型，必須從以下列表中選擇：\n" ++
  questionTypesList questionTypes ++
  "\n\n【出題要求】\n1. 每道題目必須有4個選項（A, B, C, D）\n" ++
  "2. 題目應該測試學生對範文的理解，包括但不限於：\n   - 文句理解與翻譯\n" ++
  "   - 主旨情感分析\n   - 修辭手法識別\n   - 文言詞彙理解\n" ++
  "   - 作者觀點分析\n   - 結構安排理解\n" ++
  "3. 選項要有合理的迷惑性，但只有一個正確答案\n4. "

/-- The prompt text of `generateMCQs` between the difficulty guidance and
the final count instruction (items 5-7, the JSON format section and the
worked example; literal braces written via escapes). -/
def promptAfterGuidance (tb : TextbookContent) : String :=
  "\n5. 每道題目都要提供詳細的解析說明\n6. 題目要參考範例題目的風格，但不要直接抄襲\n" ++
  "7. 確保題目答案可以在範文內容中找到依據\n\n【JSON輸出格式】\n" ++
  "請以JSON數組格式返回，每個題目包含以下欄位：\n- question (string): 題目文字\n" ++
  "- options (object): 包含 A, B, C, D 四個選項的對象\n" ++
  "- correct_answer (string): 正確答案（\"A\", \"B\", \"C\", 或 \"D\"）\n" ++
  "- explanation (string): 詳細解析\n- difficulty (number): 難度等級（1-5的整數）\n" ++
  "- topic (string): 題目所屬範文篇目\n" ++
  "- question_type_name (string): 題目類型，必須從上述可用的題目類型列表中選擇\n\n" ++
  "範例格式：\n[\n  \x7b\n    \"question\": \"題目內容...\",\n    \"options\": \x7b\n" ++
  "      \"A\": \"選項A內容\",\n      \"B\": \"選項B內容\",\n      \"C\": \"選項C內容\",\n" ++
  "      \"D\": \"選項D內容\"\n    \x7d,\n    \"correct_answer\": \"A\",\n" ++
  "    \"explanation\": \"解析內容...\",\n    \"difficulty\": 3,\n    \"topic\": \"" ++
  tb.topic ++ "\",\n    \"question_type_name\": \"文句翻譯與名句摘錄\"\n  \x7d\n]\n\n"

/-- The final count instruction of the prompt. -/
def promptCountInstruction (numberOfMCQs : Nat) : String :=
  "請生成 " ++ toString numberOfMCQs ++ " 道符合以上要求的選擇題。"

/-- The full user prompt assembled in `generateMCQs`. -/
def buildPrompt (tb : TextbookContent)
    (sampleQuestions : List PastPaperQuestion) (numberOfMCQs : Nat)
    (difficulty : DifficultyMode) (questionTypes : List QuestionType) : String :=
  promptBeforeGuidance tb sampleQuestions numberOfMCQs questionTypes ++
  difficultyGuidance difficulty ++
  promptAfterGuidance tb ++
  promptCountInstruction numberOfMCQs

/-- `generateMCQs`: one structured-output call on the assembled prompt.
`generator` stands for `generateObject` with `MCQsSchema` (whole-array
result or a thrown error; per the collaborator contract every item of an
`ok` result is `schemaValid`).  The surrounding try/catch only logs and
rethrows, so the engine returns the collaborator result unchanged — it
performs no count or difficulty-band validation of its own. -/
def generateMCQs (generator : String → Except String (List GeneratedMCQ))
    (textbookContent : TextbookContent)
    (sampleQuestions : List PastPaperQuestion) (numberOfMCQs : Nat)
    (difficulty : DifficultyMode) (questionTypes : List QuestionType) :
    Except String (List GeneratedMCQ) :=
  generator
    (buildPrompt textbookContent sampleQuestions numberOfMCQs difficulty
      questionTypes)

/-- The environment variables read at module load. -/
structure GenEnv where
  supabaseUrl : Option String
  supabaseKey : Option String
  openaiKey : Option String
deriving Repr, DecidableEq

/-- The module-load credential checks (run before any function body). -/
def validateEnv (env : GenEnv) : Except String Unit :=
  if env.supabaseUrl.isNone || env.supabaseKey.isNone then
    .error "Missing SUPABASE_URL or SUPABASE_ANON_KEY in environment variables"
  else if env.openaiKey.isNone then
    .error "Missing OPENAI_API_KEY in environment variables"
  else .ok ()

/-- The `CONFIG` object of `generate-mcq.ts`. -/
structure GenConfig where
  subject : String
  topic : Option String
  questionTypes : Option (List String)
  numberOfQuestions : Nat
  numberOfMCQsToGenerate : Nat
  difficulty : DifficultyMode
deriving Repr, DecidableEq

/-- Externally visible work steps of `generateMCQQuestions`, in order. -/
inductive RunStep
  | queryQuestionTypes
  | querySampleQuestions
  | queryTextbook
  | callGenerate
  | writeOutputFile
deriving Repr, DecidableEq

/-- The step sequence of `generateMCQQuestions` (the function body, run
after module-load validation): Step 1 queries question types, Step 2
queries and samples past-paper questions, Step 3 checks `CONFIG.topic`
and fetches textbook content, Step 4 generates, Step 5 writes the output
file.  Returns the steps performed and the outcome. -/
def generateMCQQuestionsSteps (cfg : GenConfig)
    (shuffle : List PastPaperQuestion → List PastPaperQuestion)
    (questionTypeRows : List QuestionType) (ppRows : List PastPaperQuestion)
    (textbooks : List TextbookContent)
    (generator : String → Except String (List GeneratedMCQ)) :
    List RunStep × Except String Unit :=
  let questionTypes := fetchQuestionTypes questionTypeRows cfg.subject
  match fetchRandomQuestions shuffle ppRows cfg.subject cfg.topic
      cfg.questionTypes cfg.numberOfQuestions questionTypes with
  | .error e => ([.queryQuestionTypes, .querySampleQuestions], .error e)
  | .ok sampleQuestions =>
    match cfg.topic with
    | none =>
      ([.queryQuestionTypes, .querySampleQuestions],
       .error "Topic must be specified for textbook content retrieval")
    | some t =>
      match fetchTextbookContent textbooks cfg.subject t with
      | .error e =>
        ([.queryQuestionTypes, .querySampleQuestions, .queryTextbook],
         .error e)
      | .ok tb =>
        match generateMCQs generator tb sampleQuestions
            cfg.numberOfMCQsToGenerate cfg.difficulty questionTypes with
        | .error e =>
          ([.queryQuestionTypes, .querySampleQuestions, .queryTextbook,
            .callGenerate], .error e)
        | .ok _ =>
          ([.queryQuestionTypes, .querySampleQuestions, .queryTextbook,
            .callGenerate, .writeOutputFile], .ok ())

/-- The whole script run: module-load validation first; only when it
passes does `generateMCQQuestions` run. -/
def runGenerateScript (env : GenEnv) (cfg : GenConfig)
    (shuffle : List PastPaperQuestion → List PastPaperQuestion)
    (questionTypeRows : List QuestionType) (ppRows : List PastPaperQuestion)
    (textbooks : List TextbookContent)
    (generator : String → Except String (List GeneratedMCQ)) :
    List RunStep × Except String Unit :=
  match validateEnv env with
  | .error e => ([], .error e)
  | .ok _ =>
    generateMCQQuestionsSteps cfg shuffle questionTypeRows ppRows textbooks
      generator

end GenMCQ

namespace PastPapers

/-! Model of `src/upload-pastpapers.ts`. -/

/-- One candidate of the structured OCR output (`PastPaperQuestionSchema`):
the extractor emits all fields including its own `subject` and
`grade_level` guesses and a free question-type label from the closed
list. -/
structure Candidate where
  topic : String
  question : String
  answer : String
  question_number : Int
  question_year : Int
  subject : String
  explanation : String
  difficulty : Int
  grade_level : String
  question_type_name : String
deriving Repr, DecidableEq

/-- The provenance metadata attached to each processed record. -/
structure PPMetadata where
  source_image : String
  extracted_at : String
  question_type_name : String
deriving Repr, DecidableEq

/-- A fully processed record as inserted into `pastpapers`
(`PastPaperRecord` in the source: the candidate minus
`question_type_name`, plus resolved id, embedding and metadata). -/
structure PastPaperRecord where
  topic : String
  question : String
  answer : String
  question_number : Int
  question_year : Int
  subject : String
  explanation : String
  difficulty : Int
  grade_level : String
  question_type_id : String
  embedding : List Int
  metadata : PPMetadata
deriving Repr, DecidableEq

/-- The `subject`/`gradeLevel` part of `CONFIG`. -/
structure PPConfig where
  subject : String
  gradeLevel : String
deriving Repr, DecidableEq

/-- `mapQuestionTypeToId`: exact-name lookup in the fetched vocabulary;
throws when the label is not found. -/
def mapQuestionTypeToId (questionTypeName : String)
    (questionTypes : List QuestionType) : Except String String :=
  match questionTypes.find? (fun qt => qt.name == questionTypeName) with
  | some qt => .ok qt.id
  | none =>
    .error ("Question type \"" ++ questionTypeName ++
      "\" not found in available types")

/-- The grounding text passed to `generateEmbedding` for a candidate:
`question + '\n' + answer + '\n' + explanation`. -/
def groundingText (q : Candidate) : String :=
  q.question ++ "\n" ++ q.answer ++ "\n" ++ q.explanation

/-- The per-candidate body of the inner loop: resolve the type label, embed
the grounding text, and build the record.  `embedF` stands for the
embedding collaborator (`embed` with model `bge-m3`); either failure is
caught by the surrounding per-candidate try/catch. -/
def processQuestion (cfg : PPConfig)
    (embedF : String → Except String (List Int))
    (questionTypes : List QuestionType) (filename timestamp : String)
    (q : Candidate) : Except String PastPaperRecord :=
  match mapQuestionTypeToId q.question_type_name questionTypes with
  | .error e => .error e
  | .ok questionTypeId =>
    match embedF (groundingText q) with
    | .error e => .error e
    | .ok embedding =>
      .ok
        { topic := q.topic
          question := q.question
          question_number := q.question_number
          question_year := q.question_year
          subject := cfg.subject
          explanation := q.explanation
          answer := q.answer
          difficulty := q.difficulty
          grade_level := cfg.gradeLevel
          question_type_id := questionTypeId
          embedding := embedding
          metadata :=
            { source_image := filename
              extracted_at := timestamp
              question_type_name := q.question_type_name } }

/-- The mutable state of the batch loop in `processAndExtractQuestions`. -/
structure BatchState where
  allRecords : List PastPaperRecord
  successCount : Nat
  errorCount : Nat
deriving Repr, DecidableEq

/-- The inner loop over one image's extracted candidates: each candidate
is processed in its own try/catch; a failure increments `errorCount` and
the loop continues with the next sibling. -/
def processImageQuestions (cfg : PPConfig)
    (embedF : String → Except String (List Int))
    (questionTypes : List QuestionType) (filename timestamp : String)
    (qs : List Candidate) (st : BatchState) : BatchState :=
  qs.foldl
    (fun st q =>
      match processQuestion cfg embedF questionTypes filename timestamp q with
      | .ok r => { st with allRecords := st.allRecords ++ [r] }
      | .error _ => { st with errorCount := st.errorCount + 1 })
    st

/-- The body of the outer loop for one image `(filename, ocr)`, where
`ocr` is the outcome of `performOCR` (whole-image extraction can fail):
an image-level failure increments `errorCount` and the loop continues; a
successful image runs the inner loop and then increments
`successCount`. -/
def imageStep (cfg : PPConfig)
    (embedF : String → Except String (List Int))
    (questionTypes : List QuestionType) (timestamp : String)
    (st : BatchState) (img : String × Except String (List Candidate)) :
    BatchState :=
  match img.2 with
  | .error _ => { st with errorCount := st.errorCount + 1 }
  | .ok qs =>
    let st' :=
      processImageQuestions cfg embedF questionTypes img.1 timestamp qs st
    { st' with successCount := st'.successCount + 1 }

/-- The outer loop over image files of `processAndExtractQuestions`. -/
def processImages (cfg : PPConfig)
    (embedF : String → Except String (List Int))
    (questionTypes : List QuestionType) (timestamp : String)
    (images : List (String × Except String (List Candidate))) : BatchState :=
  images.foldl (imageStep cfg embedF questionTypes timestamp)
    { allRecords := [], successCount := 0, errorCount := 0 }

/-- `JSON.stringify(metadata, null, 2)` for the metadata bag (literal
braces written via escapes). -/
def metadataJson (m : PPMetadata) : String :=
  "\x7b\n  \"source_image\": \"" ++ m.source_image ++
  "\",\n  \"extracted_at\": \"" ++ m.extracted_at ++
  "\",\n  \"question_type_name\": \"" ++ m.question_type_name ++ "\"\n\x7d"

/-- One full-field block of the review file for question `idx`
(0-based, printed 1-based). -/
def reviewBlock (idx : Nat) (q : PastPaperRecord) : String :=
  "Question " ++ toString (idx + 1) ++ ":\n" ++
  "  Topic: " ++ q.topic ++ "\n" ++
  "  Year: " ++ toString q.question_year ++ "\n" ++
  "  Question Number: " ++ toString q.question_number ++ "\n" ++
  "  Subject: " ++ q.subject ++ "\n" ++
  "  Grade Level: " ++ q.grade_level ++ "\n" ++
  "  Question Type ID: " ++ q.question_type_id ++ "\n" ++
  "  Difficulty: " ++ toString q.difficulty ++ "/5\n" ++
  "  Explanation: " ++ q.explanation ++ "\n" ++
  "  Question:" ++ q.question ++ "\n" ++
  "  Answer:" ++ q.answer ++ "\n" ++
  "  Metadata: " ++ metadataJson q.metadata ++ "\n" ++
  String.mk (List.replicate 80 '-') ++ "\n\n"

/-- The header of the review file: banner, total count, timestamp and
separator rule. -/
def reviewHeader (timestamp : String) (total : Nat) : String :=
  "=== EXTRACTED PAST PAPER QUESTIONS ===\n" ++
  "Total Questions: " ++ toString total ++ "\n" ++
  "Generated: " ++ timestamp ++ "\n" ++
  String.mk (List.replicate 80 '=') ++ "\n\n"

/-- The full content written by `saveToReviewFile`. -/
def reviewFileContent (timestamp : String)
    (questions : List PastPaperRecord) : String :=
  reviewHeader timestamp questions.length ++
  String.join (questions.mapIdx reviewBlock)

/-- Externally visible effects of steps 4 and 5 of
`processAndExtractQuestions`. -/
inductive PPEvent
  | writeReviewFile (content : String)
  | insertRecord (r : PastPaperRecord)
deriving Repr, DecidableEq

/-- Steps 4 and 5: when at least one record was processed, first write the
review file (awaited), then attempt one insert per record (each in its
own try/catch, so every record gets an attempt whatever the earlier
outcomes); with no records, neither step runs. -/
def reportAndUploadEvents (timestamp : String)
    (allRecords : List PastPaperRecord) : List PPEvent :=
  if allRecords.length > 0 then
    PPEvent.writeReviewFile (reviewFileContent timestamp allRecords) ::
      allRecords.map PPEvent.insertRecord
  else []

/-- The full extraction-run event trace from the batch-loop result. -/
def extractionRunEvents (cfg : PPConfig)
    (embedF : String → Except String (List Int))
    (questionTypes : List QuestionType) (timestamp : String)
    (images : List (String × Except String (List Candidate))) :
    List PPEvent :=
  reportAndUploadEvents timestamp
    (processImages cfg embedF questionTypes timestamp images).allRecords

/-- Specification-side view: the successfully processed records of one
image's candidate list, in order. -/
def imageSuccesses (cfg : PPConfig)
    (embedF : String → Except String (List Int))
    (questionTypes : List QuestionType) (filename timestamp : String)
    (qs : List Candidate) : List PastPaperRecord :=
  qs.filterMap
    (fun q => (processQuestion cfg embedF questionTypes filename timestamp q).toOption)

/-- Specification-side view: how many of one image's candidates fail. -/
def imageFailureCount (cfg : PPConfig)
    (embedF : String → Except String (List Int))
    (questionTypes : List QuestionType) (filename timestamp : String)
    (qs : List Candidate) : Nat :=
  qs.countP
    (fun q => !(processQuestion cfg embedF questionTypes filename timestamp q).isOk)

/-- Specification-side view: records contributed by one image of the batch
(none when its OCR call failed). -/
def imageRecords (cfg : PPConfig)
    (embedF : String → Except String (List Int))
    (questionTypes : List QuestionType) (timestamp : String)
    (img : String × Except String (List Candidate)) : List PastPaperRecord :=
  match img.2 with
  | .ok qs => imageSuccesses cfg embedF questionTypes img.1 timestamp qs
  | .error _ => []

/-- Specification-side view: an image counts as one success iff its OCR
call succeeded. -/
def imageSuccessContribution (img : String × Except String (List Candidate)) :
    Nat :=
  match img.2 with
  | .ok _ => 1
  | .error _ => 0

/-- Specification-side view: failures contributed by one image (its failed
candidates, or 1 for a failed OCR call). -/
def imageErrorContribution (cfg : PPConfig)
    (embedF : String → Except String (List Int))
    (questionTypes : List QuestionType) (timestamp : String)
    (img : String × Except String (List Candidate)) : Nat :=
  match img.2 with
  | .ok qs => imageFailureCount cfg embedF questionTypes img.1 timestamp qs
  | .error _ => 1

end PastPapers

namespace Upload

/-! Model of `src/upload.ts` (textbook uploader). -/

/-- The `subject`/`gradeLevel` part of `CONFIG`. -/
structure UpConfig where
  subject : String
  gradeLevel : String
deriving Repr, DecidableEq

/-- The metadata bag attached to a textbook record (the spread of
`CONFIG.metadata` is empty in the source, leaving these three keys). -/
structure TBMetadata where
  filename : String
  summary : String
  uploadedAt : String
deriving Repr, DecidableEq

/-- A row inserted into the `textbooks` table. -/
structure TextbookRecord where
  topic : String
  content : String
  subject : String
  grade_level : Option String
  embedding : List Int
  metadata : TBMetadata
deriving Repr, DecidableEq

/-- `extractTopicFromFilename`: `path.basename(filename, '.txt')` on a
plain file name drops a trailing `.txt` (suffix test written via
`takeRight` so that it evaluates). -/
def extractTopicFromFilename (filename : String) : String :=
  if filename.takeRight 4 = ".txt" then filename.dropRight 4 else filename

/-- `CONFIG.gradeLevel || null`: the empty string is falsy in JavaScript
and becomes `null`. -/
def gradeLevelOrNull (gradeLevel : String) : Option String :=
  if gradeLevel == "" then none else some gradeLevel

/-- The per-file body of the upload loop: summarize the file content
(`summarize` stands for `generateText`), embed the summary (`embedF`
stands for the embedding collaborator), and build the record: `content`
is the raw file text, the embedding is computed from the summary, and the
summary is kept in the metadata bag. -/
def processTextbook (cfg : UpConfig)
    (summarize : String → Except String String)
    (embedF : String → Except String (List Int))
    (filename content timestamp : String) : Except String TextbookRecord :=
  match summarize content with
  | .error e => .error e
  | .ok summary =>
    match embedF summary with
    | .error e => .error e
    | .ok embedding =>
      .ok
        { topic := extractTopicFromFilename filename
          content := content
          subject := cfg.subject
          grade_level := gradeLevelOrNull cfg.gradeLevel
          embedding := embedding
          metadata :=
            { filename := filename
              summary := summary
              uploadedAt := timestamp } }

end Upload

/-! ## Specification predicates and concrete instances -/

/-- Soundness of one `fetchMCQsByDifficulty` call: the selection is no
longer than `min(requested, available-after-filter)`, and every selected
record satisfies the subject and topic equality filters and — when a
non-empty type-name filter resolves to at least one id — has its
`question_type_id` among the resolved ids. -/
def MCQFilterSound (shuffle : List MCQSetScript.MCQ → List MCQSetScript.MCQ)
    (rows : List MCQSetScript.MCQ) (filters : MCQSetScript.Filters)
    (qts : List QuestionType) (dls : Option (List Int)) (limit : Nat) : Prop :=
  (MCQSetScript.fetchMCQsByDifficulty shuffle rows filters qts dls limit).length ≤
      min limit (rows.filter (MCQSetScript.mcqMatches filters qts dls)).length ∧
    ∀ m ∈ MCQSetScript.fetchMCQsByDifficulty shuffle rows filters qts dls limit,
      (∀ s, filters.subject = some s → m.subject = s) ∧
      (∀ t, filters.topic = some t → m.topic = t) ∧
      (∀ names, filters.questionTypeNames = some names → names ≠ [] →
        MCQSetScript.resolveTypeIds names qts ≠ [] →
        ∃ qid, m.question_type_id = some qid ∧
          qid ∈ MCQSetScript.resolveTypeIds names qts)

/-- Soundness of a successful `fetchRandomQuestions` selection, in the
same sense as `MCQFilterSound` (the subject filter is mandatory here). -/
def PPFilterSound (rows : List GenMCQ.PastPaperQuestion) (subject : String)
    (topic : Option String) (names0 : Option (List String)) (limit : Nat)
    (qts : List QuestionType) (sel : List GenMCQ.PastPaperQuestion) : Prop :=
  sel.length ≤
      min limit (rows.filter (GenMCQ.ppMatches subject topic names0 qts)).length ∧
    ∀ q ∈ sel,
      q.subject = subject ∧
      (∀ t, topic = some t → q.topic = t) ∧
      (∀ names, names0 = some names → names ≠ [] →
        MCQSetScript.resolveTypeIds names qts ≠ [] →
        q.question_type_id ∈ MCQSetScript.resolveTypeIds names qts)

/-- The general part of the set-linkage contract for one selection: the
`order_index` column is exactly `1..N`; the rows pair those indices with
the selection stably sorted by ascending `diffKey` (so by ascending
difficulty, records without a difficulty last, ties in original order). -/
def LinkSpec (sid : String) (mcqs : List MCQSetScript.MCQ) : Prop :=
  ((MCQSetScript.linkMCQsToSet sid mcqs).map (fun r => r.order_index) =
      List.range' 1 mcqs.length) ∧
    ((MCQSetScript.linkMCQsToSet sid mcqs).map (fun r => r.mcq_id) =
      (mcqs.mergeSort MCQSetScript.diffLE).map (fun m => m.id)) ∧
    (mcqs.mergeSort MCQSetScript.diffLE).Perm mcqs ∧
    (mcqs.mergeSort MCQSetScript.diffLE).Pairwise
      (fun a b =>
        MCQSetScript.diffKey a.difficulty ≤ MCQSetScript.diffKey b.difficulty) ∧
    (mcqs.mergeSort MCQSetScript.diffLE).Pairwise
      (fun a b => a.difficulty = none → b.difficulty = none) ∧
    ∀ k : Int,
      (mcqs.mergeSort MCQSetScript.diffLE).filter
          (fun m => MCQSetScript.diffKey m.difficulty == k) =
        mcqs.filter (fun m => MCQSetScript.diffKey m.difficulty == k)

/-- A concrete `mcqs` row whose type id resolves to nothing in the
vocabulary below. -/
def c1CexRow : MCQSetScript.MCQ :=
  { id := "m1", topic := "T", question := "Q", subject := "S"
    correct_answer := "A", explanation := "E", grade_level := none
    difficulty := some 3, question_type_id := some "zzz" }

/-- A filter configuration whose question-type-name filter resolves to
zero ids against the vocabulary below. -/
def c1CexFilters : MCQSetScript.Filters :=
  { topic := none, questionTypeNames := some ["乙"], subject := none
    difficultyDistribution := none, limit := 10 }

/-- A vocabulary containing only the name `甲`, so the name `乙` resolves
to no id. -/
def c1CexType : QuestionType := { id := "t1", name := "甲", subject := "S" }

/-- A concrete `mcqs` row matching the subject filter of
`c1WitFilters`. -/
def c1WitRow : MCQSetScript.MCQ :=
  { id := "m2", topic := "T2", question := "Q2", subject := "S"
    correct_answer := "B", explanation := "E2", grade_level := none
    difficulty := some 2, question_type_id := some "t1" }

/-- A subject-only filter configuration for the sampling witness. -/
def c1WitFilters : MCQSetScript.Filters :=
  { topic := none, questionTypeNames := none, subject := some "S"
    difficultyDistribution := none, limit := 10 }

/-- A concrete `pastpapers` row for the sampling witness. -/
def c1WitPP : GenMCQ.PastPaperQuestion :=
  { id := "p1", topic := "T", question := "Q", answer := "A"
    question_number := 1, question_year := 2023, subject := "S"
    explanation := "E", difficulty := 3, grade_level := "DSE"
    question_type_id := "t1" }

/-- A filter configuration with no distribution, used to drive `fetchMCQs`
through its flat-limit branch on an empty store. -/
def c2CexFilters : MCQSetScript.Filters :=
  { topic := none, questionTypeNames := none, subject := none
    difficultyDistribution := none, limit := 10 }

/-- The worked selection of the linkage example: difficulties
`[3, 1, 5, null, 2]` in selection order. -/
def c3Example : List MCQSetScript.MCQ :=
  [ { id := "q1", topic := "T", question := "Q1", subject := "S"
      correct_answer := "A", explanation := "E1", grade_level := none
      difficulty := some 3, question_type_id := none },
    { id := "q2", topic := "T", question := "Q2", subject := "S"
      correct_answer := "B", explanation := "E2", grade_level := none
      difficulty := some 1, question_type_id := none },
    { id := "q3", topic := "T", question := "Q3", subject := "S"
      correct_answer := "C", explanation := "E3", grade_level := none
      difficulty := some 5, question_type_id := none },
    { id := "q4", topic := "T", question := "Q4", subject := "S"
      correct_answer := "D", explanation := "E4", grade_level := none
      difficulty := none, question_type_id := none },
    { id := "q5", topic := "T", question := "Q5", subject := "S"
      correct_answer := "A", explanation := "E5", grade_level := none
      difficulty := some 2, question_type_id := none } ]

/-- The expected linkage rows for `c3Example`: difficulty order
`[1, 2, 3, 5, null]` with `order_index` `1..5`. -/
def c3ExpectedRows : List MCQSetScript.MCQSetQuestion :=
  [ { mcqset_id := "set1", mcq_id := "q2", order_index := 1 },
    { mcqset_id := "set1", mcq_id := "q5", order_index := 2 },
    { mcqset_id := "set1", mcq_id := "q1", order_index := 3 },
    { mcqset_id := "set1", mcq_id := "q3", order_index := 4 },
    { mcqset_id := "set1", mcq_id := "q4", order_index := 5 } ]

/-- The extraction run configuration used by the concrete extraction
scenarios: the configured subject and grade level differ from what the
extractor candidates claim. -/
def ppCfg0 : PastPapers.PPConfig := { subject := "S", gradeLevel := "DSE" }

/-- A vocabulary in which only `類型甲` is a known question type. -/
def ppQts0 : List QuestionType := [{ id := "ty1", name := "類型甲", subject := "S" }]

/-- A concrete embedding collaborator that always succeeds with the
non-empty vector `[1]`. -/
def okEmbed : String → Except String (List Int) := fun _ => .ok [1]

/-- Candidate 1 of the extraction scenario: resolvable type label; its
own `subject`/`grade_level` guesses differ from the configuration. -/
def cA : PastPapers.Candidate :=
  { topic := "T", question := "Q1", answer := "A1", question_number := 1
    question_year := 2020, subject := "SUBJ-FROM-MODEL", explanation := "X1"
    difficulty := 2, grade_level := "GL-FROM-MODEL"
    question_type_name := "類型甲" }

/-- Candidate 2 of the extraction scenario: its label `類型乙` is not in
the vocabulary, so processing it fails. -/
def cB : PastPapers.Candidate :=
  { topic := "T", question := "Q2", answer := "A2", question_number := 2
    question_year := 2020, subject := "S", explanation := "X2"
    difficulty := 3, grade_level := "DSE", question_type_name := "類型乙" }

/-- Candidate 3 of the extraction scenario: resolvable type label. -/
def cC : PastPapers.Candidate :=
  { topic := "T", question := "Q3", answer := "A3", question_number := 3
    question_year := 2021, subject := "S", explanation := "X3"
    difficulty := 4, grade_level := "DSE", question_type_name := "類型甲" }

/-- The record produced from `cA` under `ppCfg0`/`okEmbed` with source
image `img1.png` and timestamp `T0`. -/
def c4recA : PastPapers.PastPaperRecord :=
  { topic := "T", question := "Q1", answer := "A1", question_number := 1
    question_year := 2020, subject := "S", explanation := "X1"
    difficulty := 2, grade_level := "DSE", question_type_id := "ty1"
    embedding := [1]
    metadata := { source_image := "img1.png", extracted_at := "T0"
                  question_type_name := "類型甲" } }

/-- The record produced from `cC` under `ppCfg0`/`okEmbed` with source
image `img1.png` and timestamp `T0`. -/
def c4recC : PastPapers.PastPaperRecord :=
  { topic := "T", question := "Q3", answer := "A3", question_number := 3
    question_year := 2021, subject := "S", explanation := "X3"
    difficulty := 4, grade_level := "DSE", question_type_id := "ty1"
    embedding := [1]
    metadata := { source_image := "img1.png", extracted_at := "T0"
                  question_type_name := "類型甲" } }

/-- A schema-valid generated MCQ with difficulty 4. -/
def c5CexMCQ : GenMCQ.GeneratedMCQ :=
  { question := "Q", optionA := "a", optionB := "b", optionC := "c"
    optionD := "d", correct_answer := "A", explanation := "E"
    difficulty := 4, topic := "T", question_type_name := "類型甲" }

/-- A structured-output collaborator double returning a single item
whatever the prompt (a legal behaviour: the schema constrains neither the
array length nor the difficulty band). -/
def c5Gen : String → Except String (List GenMCQ.GeneratedMCQ) :=
  fun _ => .ok [c5CexMCQ]

/-- A concrete textbook row for the generation scenario. -/
def c5Textbook : GenMCQ.TextbookContent :=
  { topic := "T", content := "C", subject := "S" }

/-- A generation configuration with `topic` unset (required for the
content-grounded generation of this script). -/
def c6Cfg : GenMCQ.GenConfig :=
  { subject := "S", topic := none, questionTypes := none
    numberOfQuestions := 1, numberOfMCQsToGenerate := 2
    difficulty := .hard }

/-- An environment with all credentials present. -/
def c6Env : GenMCQ.GenEnv :=
  { supabaseUrl := some "u", supabaseKey := some "k", openaiKey := some "o" }

/-- A generation collaborator double that always errors (never reached in
the missing-topic scenario). -/
def c6Gen : String → Except String (List GenMCQ.GeneratedMCQ) :=
  fun _ => .error "x"

/-- The upload configuration of the textbook-upload scenario. -/
def upCfg0 : Upload.UpConfig := { subject := "S", gradeLevel := "DSE" }

/-- A summarizer double returning a fixed summary. -/
def okSummarize : String → Except String String := fun _ => .ok "SUMMARY"

/-- The record produced by `processTextbook` for file `a.txt` with content
`FULLTEXT` under `upCfg0`, `okSummarize` and `okEmbed`. -/
def c10rec : Upload.TextbookRecord :=
  { topic := "a", content := "FULLTEXT", subject := "S"
    grade_level := some "DSE", embedding := [1]
    metadata := { filename := "a.txt", summary := "SUMMARY"
                  uploadedAt := "T1" } }

/-! ## Helper lemmas -/

namespace MCQSetScript

theorem length_fetchMCQsByDifficulty_le
    (shuffle : List MCQ → List MCQ) (rows : List MCQ) (filters : Filters)
    (qts : List QuestionType) (dls : Option (List Int)) (limit : Nat) :
    (fetchMCQsByDifficulty shuffle rows filters qts dls limit).length ≤
      min limit (rows.filter (mcqMatches filters qts dls)).length := by
  simp only [fetchMCQsByDifficulty]
  split
  · simp
  · exact List.length_take_le _ _

theorem mem_fetchMCQsByDifficulty
    (shuffle : List MCQ → List MCQ) (rows : List MCQ) (filters : Filters)
    (qts : List QuestionType) (dls : Option (List Int)) (limit : Nat)
    (hsh : ∀ (l : List MCQ) (x : MCQ), x ∈ shuffle l → x ∈ l)
    (m : MCQ)
    (hm : m ∈ fetchMCQsByDifficulty shuffle rows filters qts dls limit) :
    m ∈ rows ∧ mcqMatches filters qts dls m = true := by
  simp only [fetchMCQsByDifficulty] at hm
  split at hm
  · simp at hm
  · have h1 : m ∈ shuffle (rows.filter (mcqMatches filters qts dls)) :=
      List.mem_of_mem_take hm
    have h2 := hsh _ _ h1
    exact ⟨List.mem_of_mem_filter h2, List.of_mem_filter h2⟩

theorem mcqMatches_subject {filters : Filters} {qts : List QuestionType}
    {dls : Option (List Int)} {m : MCQ} {s : String}
    (h : mcqMatches filters qts dls m = true)
    (hs : filters.subject = some s) : m.subject = s := by
  unfold mcqMatches at h
  rw [hs] at h
  simp only [Bool.and_eq_true, beq_iff_eq] at h
  exact h.1.1.1

theorem mcqMatches_topic {filters : Filters} {qts : List QuestionType}
    {dls : Option (List Int)} {m : MCQ} {t : String}
    (h : mcqMatches filters qts dls m = true)
    (ht : filters.topic = some t) : m.topic = t := by
  unfold mcqMatches at h
  rw [ht] at h
  simp only [Bool.and_eq_true, beq_iff_eq] at h
  exact h.1.1.2

theorem mcqMatches_typeIds {filters : Filters} {qts : List QuestionType}
    {dls : Option (List Int)} {m : MCQ} {names : List String}
    (h : mcqMatches filters qts dls m = true)
    (hn : filters.questionTypeNames = some names)
    (hne : names ≠ [])
    (hids : resolveTypeIds names qts ≠ []) :
    ∃ qid, m.question_type_id = some qid ∧
      qid ∈ resolveTypeIds names qts := by
  unfold mcqMatches at h
  rw [hn] at h
  have hne' : names.isEmpty = false := by
    simpa [List.isEmpty_iff] using hne
  have hids' : (resolveTypeIds names qts).isEmpty = false := by
    simpa [List.isEmpty_iff] using hids
  simp only [Bool.and_eq_true, hne', hids', Bool.false_eq_true,
    if_false] at h
  have h3 := h.1.2
  cases hq : m.question_type_id with
  | none => rw [hq] at h3; simp at h3
  | some qid =>
    rw [hq] at h3
    exact ⟨qid, rfl, by simpa using h3⟩

end MCQSetScript

namespace GenMCQ

theorem mem_fetchRandomQuestions
    (shuffle : List PastPaperQuestion → List PastPaperQuestion)
    (rows : List PastPaperQuestion) (subject : String) (topic : Option String)
    (names : Option (List String)) (limit : Nat) (qts : List QuestionType)
    (sel : List PastPaperQuestion)
    (hsh : ∀ (l : List PastPaperQuestion) (x : PastPaperQuestion),
      x ∈ shuffle l → x ∈ l)
    (hok : fetchRandomQuestions shuffle rows subject topic names limit qts =
      .ok sel) :
    sel.length ≤
        min limit (rows.filter (ppMatches subject topic names qts)).length ∧
      ∀ q ∈ sel, q ∈ rows ∧ ppMatches subject topic names qts q = true := by
  simp only [fetchRandomQuestions] at hok
  split at hok
  · exact absurd hok (by simp)
  · cases hok
    constructor
    · exact List.length_take_le _ _
    · intro q hq
      have h1 : q ∈ shuffle (rows.filter (ppMatches subject topic names qts)) :=
        List.mem_of_mem_take hq
      have h2 := hsh _ _ h1
      exact ⟨List.mem_of_mem_filter h2, List.of_mem_filter h2⟩

theorem ppMatches_subject {subject : String} {topic : Option String}
    {names : Option (List String)} {qts : List QuestionType}
    {q : PastPaperQuestion}
    (h : ppMatches subject topic names qts q = true) : q.subject = subject := by
  unfold ppMatches at h
  simp only [Bool.and_eq_true, beq_iff_eq] at h
  exact h.1.1

theorem ppMatches_topic {subject : String} {topic : Option String}
    {names : Option (List String)} {qts : List QuestionType}
    {q : PastPaperQuestion} {t : String}
    (h : ppMatches subject topic names qts q = true)
    (ht : topic = some t) : q.topic = t := by
  unfold ppMatches at h
  rw [ht] at h
  simp only [Bool.and_eq_true, beq_iff_eq] at h
  exact h.1.2

theorem ppMatches_typeIds {subject : String} {topic : Option String}
    {names0 : Option (List String)} {qts : List QuestionType}
    {q : PastPaperQuestion} {names : List String}
    (h : ppMatches subject topic names0 qts q = true)
    (hn : names0 = some names)
    (hne : names ≠ [])
    (hids : MCQSetScript.resolveTypeIds names qts ≠ []) :
    q.question_type_id ∈ MCQSetScript.resolveTypeIds names qts := by
  unfold ppMatches at h
  rw [hn] at h
  have hne' : names.isEmpty = false := by
    simpa [List.isEmpty_iff] using hne
  have hids' : (MCQSetScript.resolveTypeIds names qts).isEmpty = false := by
    simpa [List.isEmpty_iff] using hids
  simp only [Bool.and_eq_true, hne', hids', Bool.false_eq_true,
    if_false] at h
  simpa using h.2

end GenMCQ

namespace MCQSetScript

theorem diffLE_trans (a b c : MCQ) (h1 : diffLE a b = true)
    (h2 : diffLE b c = true) : diffLE a c = true := by
  simp only [diffLE, decide_eq_true_eq] at *
  omega

theorem diffLE_total (a b : MCQ) : (diffLE a b || diffLE b a) = true := by
  simp only [diffLE, Bool.or_eq_true, decide_eq_true_eq]
  omega

theorem toSetRows_map_order_index (sid : String) (l : List MCQ) :
    ∀ i : Nat, (toSetRows sid i l).map (fun r => r.order_index) =
      List.range' (i + 1) l.length := by
  induction l with
  | nil => intro i; simp [toSetRows]
  | cons m ms ih =>
    intro i
    simp [toSetRows, List.range'_succ, ih (i + 1)]

theorem toSetRows_map_mcq_id (sid : String) (l : List MCQ) :
    ∀ i : Nat, (toSetRows sid i l).map (fun r => r.mcq_id) =
      l.map (fun m => m.id) := by
  induction l with
  | nil => intro i; simp [toSetRows]
  | cons m ms ih =>
    intro i
    simp [toSetRows, ih (i + 1)]

theorem mergeSort_diffLE_sorted (mcqs : List MCQ) :
    (mcqs.mergeSort diffLE).Pairwise (fun a b => diffLE a b = true) :=
  List.sorted_mergeSort diffLE_trans diffLE_total mcqs

theorem filter_mergeSort_diffKey (mcqs : List MCQ) (k : Int) :
    (mcqs.mergeSort diffLE).filter (fun m => diffKey m.difficulty == k) =
      mcqs.filter (fun m => diffKey m.difficulty == k) := by
  set p : MCQ → Bool := fun m => diffKey m.difficulty == k with hp
  have hpair : (mcqs.filter p).Pairwise (fun a b => diffLE a b = true) := by
    refine List.pairwise_of_forall_mem_list ?_
    intro a ha b hb
    have hka : diffKey a.difficulty = k := by
      simpa [hp] using List.of_mem_filter ha
    have hkb : diffKey b.difficulty = k := by
      simpa [hp] using List.of_mem_filter hb
    simp [diffLE, hka, hkb]
  have hstable : (mcqs.filter p).Sublist (mcqs.mergeSort diffLE) :=
    List.sublist_mergeSort diffLE_trans diffLE_total hpair
      (List.filter_sublist mcqs)
  have h1 : (mcqs.filter p).filter p = mcqs.filter p :=
    List.filter_eq_self.mpr (fun a ha => List.of_mem_filter ha)
  have h2 : ((mcqs.filter p).filter p).Sublist
      ((mcqs.mergeSort diffLE).filter p) := List.Sublist.filter p hstable
  rw [h1] at h2
  have hlen : ((mcqs.mergeSort diffLE).filter p).length =
      (mcqs.filter p).length :=
    (List.Perm.filter p (List.mergeSort_perm mcqs diffLE)).length_eq
  exact (List.Sublist.eq_of_length h2 hlen.symm).symm

theorem mergeSort_nulls_last (mcqs : List MCQ)
    (hdiff : ∀ m ∈ mcqs, ∀ d, m.difficulty = some d → 1 ≤ d ∧ d ≤ 5) :
    (mcqs.mergeSort diffLE).Pairwise
      (fun a b => a.difficulty = none → b.difficulty = none) := by
  refine List.Pairwise.imp_of_mem ?_ (mergeSort_diffLE_sorted mcqs)
  intro a b ha hb hle hnone
  have hbmem : b ∈ mcqs := (List.mergeSort_perm mcqs diffLE).subset hb
  cases hd : b.difficulty with
  | none => rfl
  | some d =>
    have hbound := hdiff b hbmem d hd
    simp only [diffLE, decide_eq_true_eq, hnone, hd, diffKey] at hle
    have : ¬ d = 0 := by omega
    simp [this] at hle
    omega

end MCQSetScript

/-! ## Claim theorems -/

/-- C1 counterexample: with the type-name filter `["乙"]` resolving to
zero ids against a vocabulary containing only `甲`, the sampling function
still returns a record whose `question_type_id` (`"zzz"`) is not among
the (empty) resolved ids — the filter became a no-op instead of excluding
everything, so the claim as stated is false at this input. -/
theorem c1_type_filter_counterexample :
    c1CexRow ∈ MCQSetScript.fetchMCQsByDifficulty (fun l => l) [c1CexRow]
        c1CexFilters [c1CexType] none 10 ∧
    c1CexFilters.questionTypeNames = some ["乙"] ∧
    MCQSetScript.resolveTypeIds ["乙"] [c1CexType] = [] ∧
    c1CexRow.question_type_id = some "zzz" ∧
    "zzz" ∉ MCQSetScript.resolveTypeIds ["乙"] [c1CexType] := by
  refine ⟨by decide, rfl, rfl, rfl, by decide⟩

/-- C1 (amended): both sampling functions return at most
`min(requested, available-after-filter)` records, and every returned
record satisfies the active subject and topic equality filters; the
question-type-name filter is honoured whenever it resolves to at least
one id (when it resolves to zero ids the code skips the filter, so
nothing is guaranteed about `question_type_id` in that case). -/
theorem c1_sampling_filters_amended
    (shuffleM : List MCQSetScript.MCQ → List MCQSetScript.MCQ)
    (rows : List MCQSetScript.MCQ) (filters : MCQSetScript.Filters)
    (qts : List QuestionType) (dls : Option (List Int)) (limit : Nat)
    (hshM : ∀ (l : List MCQSetScript.MCQ) (x : MCQSetScript.MCQ),
      x ∈ shuffleM l → x ∈ l)
    (shuffleP : List GenMCQ.PastPaperQuestion → List GenMCQ.PastPaperQuestion)
    (prows : List GenMCQ.PastPaperQuestion) (subject : String)
    (topic : Option String) (names0 : Option (List String)) (plimit : Nat)
    (pqts : List QuestionType) (sel : List GenMCQ.PastPaperQuestion)
    (hshP : ∀ (l : List GenMCQ.PastPaperQuestion) (x : GenMCQ.PastPaperQuestion),
      x ∈ shuffleP l → x ∈ l)
    (hok : GenMCQ.fetchRandomQuestions shuffleP prows subject topic names0
      plimit pqts = .ok sel) :
    MCQFilterSound shuffleM rows filters qts dls limit ∧
      PPFilterSound prows subject topic names0 plimit pqts sel := by
  constructor
  · constructor
    · exact MCQSetScript.length_fetchMCQsByDifficulty_le shuffleM rows filters
        qts dls limit
    · intro m hm
      have h := (MCQSetScript.mem_fetchMCQsByDifficulty shuffleM rows filters
        qts dls limit hshM m hm).2
      exact ⟨fun s hs => MCQSetScript.mcqMatches_subject h hs,
        fun t ht => MCQSetScript.mcqMatches_topic h ht,
        fun names hn hne hids =>
          MCQSetScript.mcqMatches_typeIds h hn hne hids⟩
  · have h := GenMCQ.mem_fetchRandomQuestions shuffleP prows subject topic
      names0 plimit pqts sel hshP hok
    refine ⟨h.1, fun q hq => ?_⟩
    have hq' := (h.2 q hq).2
    exact ⟨GenMCQ.ppMatches_subject hq',
      fun t ht => GenMCQ.ppMatches_topic hq' ht,
      fun names hn hne hids => GenMCQ.ppMatches_typeIds hq' hn hne hids⟩

/-- C1 witness: the amended theorem applied to a one-row store for each
sampling function, with the identity shuffle. -/
theorem c1_sampling_filters_witness :
    MCQFilterSound (fun l => l) [c1WitRow] c1WitFilters [c1CexType] none 10 ∧
      PPFilterSound [c1WitPP] "S" none none 5 [] [c1WitPP] :=
  c1_sampling_filters_amended (fun l => l) [c1WitRow] c1WitFilters [c1CexType]
    none 10 (fun _ _ h => h) (fun l => l) [c1WitPP] "S" none none 5 []
    [c1WitPP] (fun _ _ h => h) (by rfl)

/-- C2 counterexample: on an empty-after-filter store, the set-creator
pipeline's empty-selection check raises
`'No MCQs found matching the criteria'` (leading to a non-zero exit), and
`fetchRandomQuestions` itself raises
`'No questions found matching the criteria'` — neither is the claimed
clean, non-throwing early exit. -/
theorem c2_empty_selection_counterexample :
    MCQSetScript.mainEmptyCheck
        (MCQSetScript.fetchMCQs (fun l => l) [] c2CexFilters []) =
      .error "No MCQs found matching the criteria" ∧
    GenMCQ.fetchRandomQuestions (fun l => l) [] "S" none none 5 [] =
      .error "No questions found matching the criteria" :=
  ⟨rfl, rfl⟩

/-- C2 (amended): `fetchMCQsByDifficulty` alone does return an explicit
empty list (not an error) when its filters match nothing; but at the
caller level an empty merged selection is a thrown
`'No MCQs found matching the criteria'` error (non-zero exit), and
`fetchRandomQuestions` throws `'No questions found matching the
criteria'` rather than returning an empty result. -/
theorem c2_empty_result_amended :
    (∀ (shuffle : List MCQSetScript.MCQ → List MCQSetScript.MCQ)
       (rows : List MCQSetScript.MCQ) (filters : MCQSetScript.Filters)
       (qts : List QuestionType) (dls : Option (List Int)) (limit : Nat),
       rows.filter (MCQSetScript.mcqMatches filters qts dls) = [] →
       MCQSetScript.fetchMCQsByDifficulty shuffle rows filters qts dls limit =
         []) ∧
    MCQSetScript.mainEmptyCheck [] =
      .error "No MCQs found matching the criteria" ∧
    (∀ sel, sel ≠ [] → MCQSetScript.mainEmptyCheck sel = .ok sel) ∧
    (∀ (shuffle : List GenMCQ.PastPaperQuestion →
         List GenMCQ.PastPaperQuestion)
       (rows : List GenMCQ.PastPaperQuestion) (subject : String)
       (topic : Option String) (names : Option (List String)) (limit : Nat)
       (qts : List QuestionType),
       rows.filter (GenMCQ.ppMatches subject topic names qts) = [] →
       GenMCQ.fetchRandomQuestions shuffle rows subject topic names limit
         qts = .error "No questions found matching the criteria") := by
  refine ⟨?_, rfl, ?_, ?_⟩
  · intro shuffle rows filters qts dls limit h
    simp [MCQSetScript.fetchMCQsByDifficulty, h]
  · intro sel h
    simp [MCQSetScript.mainEmptyCheck, List.length_eq_zero, h]
  · intro shuffle rows subject topic names limit qts h
    simp [GenMCQ.fetchRandomQuestions, h]

/-- C2 witness: the amended theorem applied to an empty store (sampling
returns `[]`, `fetchRandomQuestions` errors) and to a non-empty
selection (the caller check passes it through). -/
theorem c2_empty_result_witness :
    MCQSetScript.fetchMCQsByDifficulty (fun l => l) [] c2CexFilters [] none
        10 = [] ∧
    MCQSetScript.mainEmptyCheck [c1WitRow] = .ok [c1WitRow] ∧
    GenMCQ.fetchRandomQuestions (fun l => l) [] "T" none none 3 [] =
      .error "No questions found matching the criteria" :=
  ⟨c2_empty_result_amended.1 (fun l => l) [] c2CexFilters [] none 10 rfl,
   c2_empty_result_amended.2.2.1 [c1WitRow] (by simp),
   c2_empty_result_amended.2.2.2 (fun l => l) [] "T" none none 3 [] rfl⟩

/-- C3: linking a non-empty selection (difficulties in 1..5 where
present) produces `order_index` values `1..N` with no gaps or
duplicates, paired with the selection sorted by ascending difficulty
(stable ties, missing difficulty last); in particular the selection with
difficulties `[3, 1, 5, null, 2]` yields rows in difficulty order
`[1, 2, 3, 5, null]` with indices `1..5`. -/
theorem c3_link_order_spec (sid : String) (mcqs : List MCQSetScript.MCQ)
    (hne : mcqs ≠ [])
    (hdiff : ∀ m ∈ mcqs, ∀ d, m.difficulty = some d → 1 ≤ d ∧ d ≤ 5) :
    LinkSpec sid mcqs ∧
      MCQSetScript.linkMCQsToSet "set1" c3Example = c3ExpectedRows := by
  constructor
  · refine ⟨?_, ?_, List.mergeSort_perm mcqs _, ?_, ?_, ?_⟩
    · have hlen := (List.mergeSort_perm mcqs MCQSetScript.diffLE).length_eq
      unfold MCQSetScript.linkMCQsToSet
      rw [MCQSetScript.toSetRows_map_order_index sid _ 0, hlen]
    · unfold MCQSetScript.linkMCQsToSet
      rw [MCQSetScript.toSetRows_map_mcq_id sid _ 0]
    · exact (MCQSetScript.mergeSort_diffLE_sorted mcqs).imp
        (fun h => by simpa [MCQSetScript.diffLE] using h)
    · exact MCQSetScript.mergeSort_nulls_last mcqs hdiff
    · exact MCQSetScript.filter_mergeSort_diffKey mcqs
  · simp [MCQSetScript.linkMCQsToSet, List.mergeSort, MCQSetScript.toSetRows,
      MCQSetScript.diffLE, MCQSetScript.diffKey, c3Example, c3ExpectedRows]

/-- C3 witness: the linkage contract instantiated at the worked example
`[3, 1, 5, null, 2]`. -/
theorem c3_link_order_witness :
    LinkSpec "set1" c3Example ∧
      MCQSetScript.linkMCQsToSet "set1" c3Example = c3ExpectedRows :=
  c3_link_order_spec "set1" c3Example (by simp [c3Example])
    (by
      intro m hm d hd
      simp only [c3Example, List.mem_cons, List.not_mem_nil, or_false] at hm
      rcases hm with rfl | rfl | rfl | rfl | rfl <;> simp_all <;> omega)

namespace PastPapers

theorem processImageQuestions_eq (cfg : PPConfig)
    (embedF : String → Except String (List Int))
    (qts : List QuestionType) (fn ts : String) (qs : List Candidate)
    (st : BatchState) :
    processImageQuestions cfg embedF qts fn ts qs st =
      { allRecords := st.allRecords ++ imageSuccesses cfg embedF qts fn ts qs
        successCount := st.successCount
        errorCount := st.errorCount + imageFailureCount cfg embedF qts fn ts qs } := by
  induction qs generalizing st with
  | nil => simp [processImageQuestions, imageSuccesses, imageFailureCount]
  | cons q qs ih =>
    simp only [processImageQuestions] at ih ⊢
    rw [List.foldl_cons]
    cases hq : processQuestion cfg embedF qts fn ts q with
    | ok r =>
      simp only [hq]
      rw [ih]
      simp [imageSuccesses, imageFailureCount, List.filterMap_cons, hq,
        Except.toOption, Except.isOk, Except.toBool, List.countP_cons,
        List.append_assoc]
    | error e =>
      simp only [hq]
      rw [ih]
      simp [imageSuccesses, imageFailureCount, List.filterMap_cons, hq,
        Except.toOption, Except.isOk, Except.toBool, List.countP_cons,
        BatchState.mk.injEq]
      omega

theorem foldl_imageStep_eq (cfg : PPConfig)
    (embedF : String → Except String (List Int))
    (qts : List QuestionType) (ts : String)
    (images : List (String × Except String (List Candidate)))
    (st : BatchState) :
    images.foldl (imageStep cfg embedF qts ts) st =
      { allRecords :=
          st.allRecords ++ (images.map (imageRecords cfg embedF qts ts)).flatten
        successCount :=
          st.successCount + (images.map imageSuccessContribution).sum
        errorCount :=
          st.errorCount +
            (images.map (imageErrorContribution cfg embedF qts ts)).sum } := by
  induction images generalizing st with
  | nil => simp
  | cons img imgs ih =>
    obtain ⟨fn, ocr⟩ := img
    cases ocr with
    | error e =>
      simp only [List.foldl_cons, imageStep, ih]
      simp [imageRecords, imageSuccessContribution, imageErrorContribution,
        BatchState.mk.injEq]
      omega
    | ok qs =>
      simp only [List.foldl_cons, imageStep, processImageQuestions_eq, ih]
      simp [imageRecords, imageSuccessContribution, imageErrorContribution,
        BatchState.mk.injEq, List.append_assoc]
      omega

theorem processImages_eq (cfg : PPConfig)
    (embedF : String → Except String (List Int))
    (qts : List QuestionType) (ts : String)
    (images : List (String × Except String (List Candidate))) :
    processImages cfg embedF qts ts images =
      { allRecords := (images.map (imageRecords cfg embedF qts ts)).flatten
        successCount := (images.map imageSuccessContribution).sum
        errorCount :=
          (images.map (imageErrorContribution cfg embedF qts ts)).sum } := by
  simp [processImages, foldl_imageStep_eq]

theorem processQuestion_ok_grounding (cfg : PPConfig)
    (embedF : String → Except String (List Int))
    (qts : List QuestionType) (fn ts : String) (q : Candidate)
    (r : PastPaperRecord)
    (h : processQuestion cfg embedF qts fn ts q = .ok r) :
    embedF (r.question ++ "\n" ++ r.answer ++ "\n" ++ r.explanation) =
      .ok r.embedding := by
  unfold processQuestion at h
  cases h1 : mapQuestionTypeToId q.question_type_name qts <;> rw [h1] at h
  · simp at h
  · cases h2 : embedF (groundingText q) <;> rw [h2] at h
    · simp at h
    · injection h with h3
      subst h3
      exact h2

theorem mem_processImages_grounding (cfg : PPConfig)
    (embedF : String → Except String (List Int))
    (qts : List QuestionType) (ts : String)
    (images : List (String × Except String (List Candidate)))
    (r : PastPaperRecord)
    (hr : r ∈ (processImages cfg embedF qts ts images).allRecords) :
    embedF (r.question ++ "\n" ++ r.answer ++ "\n" ++ r.explanation) =
      .ok r.embedding := by
  rw [processImages_eq] at hr
  simp only [List.mem_flatten, List.mem_map] at hr
  obtain ⟨_, ⟨img, _, rfl⟩, hr⟩ := hr
  unfold imageRecords at hr
  cases hocr : img.2 <;> rw [hocr] at hr
  · simp at hr
  · unfold imageSuccesses at hr
    obtain ⟨q, _, hq⟩ := List.mem_filterMap.mp hr
    cases hpq : processQuestion cfg embedF qts img.1 ts q <;>
      rw [hpq] at hq <;> simp [Except.toOption] at hq
    subst hq
    exact processQuestion_ok_grounding cfg embedF qts img.1 ts q _ hpq

end PastPapers

namespace PastPapers

theorem processQuestion_ok_shape (cfg : PPConfig)
    (embedF : String → Except String (List Int))
    (qts : List QuestionType) (fn ts : String) (q : Candidate)
    (r : PastPaperRecord)
    (h : processQuestion cfg embedF qts fn ts q = .ok r) :
    r.subject = cfg.subject ∧ r.grade_level = cfg.gradeLevel ∧
      r.metadata = { source_image := fn, extracted_at := ts
                     question_type_name := q.question_type_name } := by
  unfold processQuestion at h
  cases h1 : mapQuestionTypeToId q.question_type_name qts <;> rw [h1] at h
  · simp at h
  · cases h2 : embedF (groundingText q) <;> rw [h2] at h
    · simp at h
    · injection h with h3
      subst h3
      exact ⟨rfl, rfl, rfl⟩

end PastPapers

/-- C4: per-candidate and per-image failures are isolated: the batch
result is exactly the concatenation of each image's successful records
with the summed per-image success/failure counts (the loop is a total
function — no exception escapes it); concretely, one image with 3
candidates of which one has an unresolvable type label yields exactly the
2 successful records and exactly 1 counted failure. -/
theorem c4_partial_failure_isolation :
    (∀ (cfg : PastPapers.PPConfig)
       (embedF : String → Except String (List Int))
       (qts : List QuestionType) (ts : String)
       (images : List (String × Except String (List PastPapers.Candidate))),
       PastPapers.processImages cfg embedF qts ts images =
         { allRecords :=
             (images.map (PastPapers.imageRecords cfg embedF qts ts)).flatten
           successCount :=
             (images.map PastPapers.imageSuccessContribution).sum
           errorCount :=
             (images.map
               (PastPapers.imageErrorContribution cfg embedF qts ts)).sum }) ∧
    PastPapers.processImages ppCfg0 okEmbed ppQts0 "T0"
        [("img1.png", .ok [cA, cB, cC])] =
      { allRecords := [c4recA, c4recC], successCount := 1, errorCount := 1 } ∧
    [c4recA, c4recC].length = 2 := by
  refine ⟨PastPapers.processImages_eq, by decide, rfl⟩

/-- C7: whenever the run produced at least one successfully processed
record, the externally visible trace is exactly one review-file write —
whose content is the header (count and timestamp) followed by one
full-field block per successful record of the whole run — followed by
the per-record insert attempts, so the report write strictly precedes
every persistence attempt and does not depend on their outcomes. -/
theorem c7_report_before_persistence (cfg : PastPapers.PPConfig)
    (embedF : String → Except String (List Int)) (qts : List QuestionType)
    (ts : String)
    (images : List (String × Except String (List PastPapers.Candidate)))
    (h : (PastPapers.processImages cfg embedF qts ts images).allRecords ≠ []) :
    PastPapers.extractionRunEvents cfg embedF qts ts images =
      PastPapers.PPEvent.writeReviewFile
          (PastPapers.reviewFileContent ts
            (PastPapers.processImages cfg embedF qts ts images).allRecords) ::
        (PastPapers.processImages cfg embedF qts ts images).allRecords.map
          PastPapers.PPEvent.insertRecord ∧
    PastPapers.reviewFileContent ts
        (PastPapers.processImages cfg embedF qts ts images).allRecords =
      PastPapers.reviewHeader ts
          (PastPapers.processImages cfg embedF qts ts
            images).allRecords.length ++
        String.join
          ((PastPapers.processImages cfg embedF qts ts
            images).allRecords.mapIdx PastPapers.reviewBlock) := by
  refine ⟨?_, rfl⟩
  unfold PastPapers.extractionRunEvents PastPapers.reportAndUploadEvents
  rw [if_pos (List.length_pos.mpr h)]

/-- C7 witness: the report-before-persistence trace at a concrete batch
with two successful records. -/
theorem c7_report_before_persistence_witness :
    PastPapers.extractionRunEvents ppCfg0 okEmbed ppQts0 "T0"
        [("img1.png", .ok [cA, cB, cC])] =
      PastPapers.PPEvent.writeReviewFile
          (PastPapers.reviewFileContent "T0"
            (PastPapers.processImages ppCfg0 okEmbed ppQts0 "T0"
              [("img1.png", .ok [cA, cB, cC])]).allRecords) ::
        (PastPapers.processImages ppCfg0 okEmbed ppQts0 "T0"
          [("img1.png", .ok [cA, cB, cC])]).allRecords.map
          PastPapers.PPEvent.insertRecord ∧
    PastPapers.reviewFileContent "T0"
        (PastPapers.processImages ppCfg0 okEmbed ppQts0 "T0"
          [("img1.png", .ok [cA, cB, cC])]).allRecords =
      PastPapers.reviewHeader "T0"
          (PastPapers.processImages ppCfg0 okEmbed ppQts0 "T0"
            [("img1.png", .ok [cA, cB, cC])]).allRecords.length ++
        String.join
          ((PastPapers.processImages ppCfg0 okEmbed ppQts0 "T0"
            [("img1.png", .ok [cA, cB, cC])]).allRecords.mapIdx
            PastPapers.reviewBlock) :=
  c7_report_before_persistence ppCfg0 okEmbed ppQts0 "T0"
    [("img1.png", .ok [cA, cB, cC])] (by decide)

/-- C8: every record reaching the persistence list carries the embedding
returned by the embedding collaborator on the grounding text formed
exactly from that record's own question, answer and explanation
(`question + '\n' + answer + '\n' + explanation`; these three fields are
copied unchanged from the candidate that was embedded), and — given the
collaborator contract that successful embeddings are non-empty — that
embedding is non-empty. -/
theorem c8_embedding_present_nonempty (cfg : PastPapers.PPConfig)
    (embedF : String → Except String (List Int)) (qts : List QuestionType)
    (ts : String)
    (images : List (String × Except String (List PastPapers.Candidate)))
    (hne : ∀ s v, embedF s = .ok v → v ≠ []) :
    ∀ r ∈ (PastPapers.processImages cfg embedF qts ts images).allRecords,
      embedF (r.question ++ "\n" ++ r.answer ++ "\n" ++ r.explanation) =
        .ok r.embedding ∧
      r.embedding ≠ [] := by
  intro r hr
  have hq :=
    PastPapers.mem_processImages_grounding cfg embedF qts ts images r hr
  exact ⟨hq, hne _ _ hq⟩

/-- C8 witness: the embedding property at a concrete record of the
concrete batch — its embedding is the collaborator's output on its own
question, answer and explanation. -/
theorem c8_embedding_witness :
    okEmbed (c4recA.question ++ "\n" ++ c4recA.answer ++ "\n" ++
        c4recA.explanation) = .ok c4recA.embedding ∧
    c4recA.embedding ≠ [] :=
  c8_embedding_present_nonempty ppCfg0 okEmbed ppQts0 "T0"
    [("img1.png", .ok [cA, cB, cC])]
    (fun s v h => by injection h with h; subst h; simp)
    c4recA (by decide)

/-- C9: a successfully processed record takes its `subject` and
`grade_level` from the run configuration — the extractor's own values for
those fields are discarded (changing them changes nothing) — while the
raw question-type label survives only inside the metadata bag. -/
theorem c9_record_fields_from_config (cfg : PastPapers.PPConfig)
    (embedF : String → Except String (List Int)) (qts : List QuestionType)
    (fn ts : String) (q : PastPapers.Candidate)
    (r : PastPapers.PastPaperRecord)
    (h : PastPapers.processQuestion cfg embedF qts fn ts q = .ok r) :
    r.subject = cfg.subject ∧ r.grade_level = cfg.gradeLevel ∧
    r.metadata.question_type_name = q.question_type_name ∧
    ∀ s' g',
      PastPapers.processQuestion cfg embedF qts fn ts
        { q with subject := s', grade_level := g' } = .ok r := by
  have hshape :=
    PastPapers.processQuestion_ok_shape cfg embedF qts fn ts q r h
  have hind : ∀ s' g',
      PastPapers.processQuestion cfg embedF qts fn ts
        { q with subject := s', grade_level := g' } =
      PastPapers.processQuestion cfg embedF qts fn ts q := fun _ _ => rfl
  exact ⟨hshape.1, hshape.2.1, by rw [hshape.2.2],
    fun s' g' => (hind s' g').trans h⟩

/-- C9 witness: the candidate `cA` claims subject `SUBJ-FROM-MODEL` and
grade level `GL-FROM-MODEL`, yet the produced record carries the
configured `S`/`DSE` and keeps the raw label only in metadata. -/
theorem c9_record_fields_witness :
    c4recA.subject = ppCfg0.subject ∧
    c4recA.grade_level = ppCfg0.gradeLevel ∧
    c4recA.metadata.question_type_name = cA.question_type_name ∧
    ∀ s' g',
      PastPapers.processQuestion ppCfg0 okEmbed ppQts0 "img1.png" "T0"
        { cA with subject := s', grade_level := g' } = .ok c4recA :=
  c9_record_fields_from_config ppCfg0 okEmbed ppQts0 "img1.png" "T0" cA
    c4recA rfl

/-- C10: in the textbook upload path, a successfully built record keeps
the raw file text as its `content`, its embedding is the collaborator's
output on the AI summary of that text (not on the text), and the summary
is retained in the metadata bag. -/
theorem c10_textbook_upload_spec (cfg : Upload.UpConfig)
    (summarize : String → Except String String)
    (embedF : String → Except String (List Int))
    (fn content ts : String) (r : Upload.TextbookRecord)
    (h : Upload.processTextbook cfg summarize embedF fn content ts = .ok r) :
    r.content = content ∧
    ∃ summary, summarize content = .ok summary ∧
      embedF summary = .ok r.embedding ∧
      r.metadata.summary = summary ∧
      r.topic = Upload.extractTopicFromFilename fn := by
  unfold Upload.processTextbook at h
  split at h
  · exact absurd h (by simp)
  · rename_i summary h1
    split at h
    · exact absurd h (by simp)
    · rename_i emb h2
      injection h with h3
      subst h3
      exact ⟨rfl, summary, h1, h2, rfl, rfl⟩

/-- C10 witness: the textbook-upload property at a concrete file. -/
theorem c10_textbook_upload_witness :
    c10rec.content = "FULLTEXT" ∧
    ∃ summary, okSummarize "FULLTEXT" = .ok summary ∧
      okEmbed summary = .ok c10rec.embedding ∧
      c10rec.metadata.summary = summary ∧
      c10rec.topic = Upload.extractTopicFromFilename "a.txt" :=
  c10_textbook_upload_spec upCfg0 okSummarize okEmbed "a.txt" "FULLTEXT"
    "T1" c10rec rfl

/-- C5 counterexample: a collaborator double that returns a single
schema-valid item of difficulty 4 is passed through unchanged by
`generateMCQs` for a target count of 5 in `easy` mode — the call neither
returns exactly 5 candidates nor fails, and the returned difficulty is
outside the easy band, so the claim as stated is false at this input. -/
theorem c5_generation_count_counterexample :
    GenMCQ.generateMCQs c5Gen c5Textbook [] 5 .easy [] = .ok [c5CexMCQ] ∧
    GenMCQ.schemaValid c5CexMCQ = true ∧
    ¬ ([c5CexMCQ].length = 5) ∧
    ¬ (c5CexMCQ.difficulty = 1 ∨ c5CexMCQ.difficulty = 2) :=
  ⟨rfl, rfl, by decide, by decide⟩

/-- C5 (amended): generation is atomic — the engine returns the
collaborator's whole-array result (or its error) unchanged, never a
partial per-item result — and the requested count and the difficulty-mode
instruction (for `easy`, the 1-2 band) are enforced only as prompt text:
the assembled prompt contains the mode guidance and the instruction to
generate exactly `n` questions, but the engine performs no validation of
the returned count or difficulty band. -/
theorem c5_generation_amended :
    (∀ (gen : String → Except String (List GenMCQ.GeneratedMCQ))
       (tb : GenMCQ.TextbookContent)
       (sq : List GenMCQ.PastPaperQuestion) (n : Nat)
       (d : GenMCQ.DifficultyMode) (qts : List QuestionType),
       GenMCQ.generateMCQs gen tb sq n d qts =
         gen (GenMCQ.buildPrompt tb sq n d qts)) ∧
    (∀ (tb : GenMCQ.TextbookContent) (sq : List GenMCQ.PastPaperQuestion)
       (n : Nat) (d : GenMCQ.DifficultyMode) (qts : List QuestionType),
       ∃ pre post,
         GenMCQ.buildPrompt tb sq n d qts =
           pre ++ GenMCQ.difficultyGuidance d ++ post) ∧
    (∀ (tb : GenMCQ.TextbookContent) (sq : List GenMCQ.PastPaperQuestion)
       (n : Nat) (d : GenMCQ.DifficultyMode) (qts : List QuestionType),
       ∃ pre,
         GenMCQ.buildPrompt tb sq n d qts =
           pre ++ ("請生成 " ++ toString n ++ " 道符合以上要求的選擇題。")) ∧
    GenMCQ.difficultyGuidance .easy =
      "所有題目應該是基礎難度（1-2/5），適合初學者，著重基本概念和直接理解。" := by
  refine ⟨fun gen tb sq n d qts => rfl, ?_, ?_, rfl⟩
  · intro tb sq n d qts
    exact ⟨GenMCQ.promptBeforeGuidance tb sq n qts,
      GenMCQ.promptAfterGuidance tb ++ GenMCQ.promptCountInstruction n,
      by simp [GenMCQ.buildPrompt, String.append_assoc]⟩
  · intro tb sq n d qts
    exact ⟨GenMCQ.promptBeforeGuidance tb sq n qts ++
      GenMCQ.difficultyGuidance d ++ GenMCQ.promptAfterGuidance tb, rfl⟩

/-- C6 counterexample: with all credentials present but `topic` unset,
the run performs the question-type store query and the sample-question
store query (with its sampling) before failing on the missing topic — a
required configuration value is validated only after work has started, so
the claim as stated is false at this input. -/
theorem c6_config_counterexample :
    GenMCQ.runGenerateScript c6Env c6Cfg (fun l => l) [] [c1WitPP] [] c6Gen =
      ([.queryQuestionTypes, .querySampleQuestions],
       .error "Topic must be specified for textbook content retrieval") :=
  rfl

/-- C6 (amended): the credential checks run at module load, before any
work — a failed credential validation yields an empty step trace; but
the required topic for content-grounded generation is checked only at
Step 3: with credentials valid, `topic` unset and a non-empty sample
query, the run performs the question-type query and the sampling query
before aborting on the missing topic. -/
theorem c6_config_validation_amended :
    (∀ (env : GenMCQ.GenEnv) (cfg : GenMCQ.GenConfig)
       (shuffle : List GenMCQ.PastPaperQuestion →
         List GenMCQ.PastPaperQuestion)
       (qtR : List QuestionType) (ppR : List GenMCQ.PastPaperQuestion)
       (tbs : List GenMCQ.TextbookContent)
       (gen : String → Except String (List GenMCQ.GeneratedMCQ))
       (e : String),
       GenMCQ.validateEnv env = .error e →
       GenMCQ.runGenerateScript env cfg shuffle qtR ppR tbs gen =
         ([], .error e)) ∧
    (∀ env : GenMCQ.GenEnv,
       env.supabaseUrl = none ∨ env.supabaseKey = none ∨
         env.openaiKey = none →
       ∃ e, GenMCQ.validateEnv env = .error e) ∧
    (∀ (env : GenMCQ.GenEnv) (cfg : GenMCQ.GenConfig)
       (shuffle : List GenMCQ.PastPaperQuestion →
         List GenMCQ.PastPaperQuestion)
       (qtR : List QuestionType) (ppR : List GenMCQ.PastPaperQuestion)
       (tbs : List GenMCQ.TextbookContent)
       (gen : String → Except String (List GenMCQ.GeneratedMCQ)),
       GenMCQ.validateEnv env = .ok () →
       cfg.topic = none →
       ppR.filter (GenMCQ.ppMatches cfg.subject none cfg.questionTypes
         (GenMCQ.fetchQuestionTypes qtR cfg.subject)) ≠ [] →
       GenMCQ.runGenerateScript env cfg shuffle qtR ppR tbs gen =
         ([.queryQuestionTypes, .querySampleQuestions],
          .error "Topic must be specified for textbook content retrieval")) := by
  refine ⟨?_, ?_, ?_⟩
  · intro env cfg shuffle qtR ppR tbs gen e h
    unfold GenMCQ.runGenerateScript
    rw [h]
  · intro env h
    unfold GenMCQ.validateEnv
    rcases h with h | h | h
    · exact ⟨"Missing SUPABASE_URL or SUPABASE_ANON_KEY in environment variables",
        by simp [h]⟩
    · exact ⟨"Missing SUPABASE_URL or SUPABASE_ANON_KEY in environment variables",
        by simp [h]⟩
    · by_cases hc : (env.supabaseUrl.isNone || env.supabaseKey.isNone) = true
      · exact ⟨"Missing SUPABASE_URL or SUPABASE_ANON_KEY in environment variables",
          by simp [hc]⟩
      · exact ⟨"Missing OPENAI_API_KEY in environment variables",
          by simp [hc, h]⟩
  · intro env cfg shuffle qtR ppR tbs gen henv htopic hnef
    have hfe : (ppR.filter (GenMCQ.ppMatches cfg.subject none
        cfg.questionTypes
        (GenMCQ.fetchQuestionTypes qtR cfg.subject))).isEmpty = false := by
      simpa [List.isEmpty_iff] using hnef
    unfold GenMCQ.runGenerateScript
    rw [henv]
    unfold GenMCQ.generateMCQQuestionsSteps
    rw [htopic]
    unfold GenMCQ.fetchRandomQuestions
    simp [hfe]

/-- C6 witness: the amended theorem at a missing-credential environment
(empty trace, immediate error) and at the valid-credentials,
missing-topic configuration (two store steps, then the topic error). -/
theorem c6_config_validation_witness :
    GenMCQ.runGenerateScript
        { supabaseUrl := none, supabaseKey := some "k", openaiKey := some "o" }
        c6Cfg (fun l => l) [] [] [] c6Gen =
      ([], .error
        "Missing SUPABASE_URL or SUPABASE_ANON_KEY in environment variables") ∧
    GenMCQ.runGenerateScript c6Env c6Cfg (fun l => l) [] [c1WitPP] [] c6Gen =
      ([.queryQuestionTypes, .querySampleQuestions],
       .error "Topic must be specified for textbook content retrieval") :=
  ⟨c6_config_validation_amended.1
      { supabaseUrl := none, supabaseKey := some "k", openaiKey := some "o" }
      c6Cfg (fun l => l) [] [] [] c6Gen _ rfl,
   c6_config_validation_amended.2.2 c6Env c6Cfg (fun l => l) [] [c1WitPP] []
      c6Gen rfl rfl (by decide)⟩
